import Mathlib

/-
  Verification of the kaizen-ai-systems Python SDK against its specification.

  The Python sources under src/kaizen are shallowly embedded:
  - JSON values are the inductive `Json` below; JSON numbers are modelled as
    integers, since no claim computes with fractional values (every mapper
    passes numbers through unchanged).
  - Python dicts are association lists in insertion order, with lookup
    returning the value of the (unique) matching key.
  - Python exceptions that the SDK code can raise implicitly (KeyError,
    AttributeError, TypeError, ValueError) are modelled with `Except PyFault`.
  - Python truthiness and str() are modelled by `Json.truthy` and `Json.pyStr`.
-/

set_option autoImplicit false

namespace Kaizen

/-- JSON values as produced by parsing a response body (numbers as integers;
no claim in this development computes with fractional values). -/
inductive Json where
  | null
  | bool (b : Bool)
  | num (n : Int)
  | str (s : String)
  | arr (elems : List Json)
  | obj (fields : List (String × Json))

/-- Python exceptions that the embedded code can raise implicitly. -/
inductive PyFault where
  | keyError (key : String)
  | attributeError (name : String)
  | typeError (msg : String)
  | valueError (msg : String)
  deriving DecidableEq

/-- Python truthiness of a JSON-shaped value (`bool(v)`). -/
def Json.truthy : Json → Bool
  | .null => false
  | .bool b => b
  | .num n => n != 0
  | .str s => s != ""
  | .arr xs => !xs.isEmpty
  | .obj fs => !fs.isEmpty

mutual

/-- Python repr() of a JSON-shaped value (reached by str() only on
non-string values; no claim exercises nested container reprs). -/
def Json.pyRepr : Json → String
  | .null => "None"
  | .bool true => "True"
  | .bool false => "False"
  | .num n => toString n
  | .str s => "'" ++ s ++ "'"
  | .arr xs => "[" ++ String.intercalate ", " (Json.pyReprList xs) ++ "]"
  | .obj fs => "\x7b" ++ String.intercalate ", " (Json.pyReprFields fs) ++ "\x7d"

/-- Helper for `Json.pyRepr` on array elements. -/
def Json.pyReprList : List Json → List String
  | [] => []
  | x :: xs => Json.pyRepr x :: Json.pyReprList xs

/-- Helper for `Json.pyRepr` on object fields. -/
def Json.pyReprFields : List (String × Json) → List String
  | [] => []
  | (k, v) :: fs => ("'" ++ k ++ "': " ++ Json.pyRepr v) :: Json.pyReprFields fs

end

/-- Python str() of a JSON-shaped value. -/
def Json.pyStr : Json → String
  | .str s => s
  | v => v.pyRepr

/-- Python `dict.get(key)` on a dict: absent key maps to None (`Json.null`). -/
def pyDictGet (fields : List (String × Json)) (key : String) : Json :=
  (fields.lookup key).getD .null

/-- Python `dict.get(key, default)` on a dict. -/
def pyDictGetD (fields : List (String × Json)) (key : String) (d : Json) : Json :=
  (fields.lookup key).getD d

/-- The keys of a serialized payload, in insertion order. -/
def dictKeys (fields : List (String × Json)) : List String :=
  fields.map Prod.fst

/-- Python `v.get(key)` where `v` must be a dict (AttributeError otherwise). -/
def Json.get : Json → String → Except PyFault Json
  | .obj fs, key => .ok (pyDictGet fs key)
  | _, _ => .error (.attributeError "get")

/-- Python `v.get(key, default)` where `v` must be a dict. -/
def Json.getD : Json → String → Json → Except PyFault Json
  | .obj fs, key, d => .ok (pyDictGetD fs key d)
  | _, _, _ => .error (.attributeError "get")

/-- Python `v[key]` subscription by string key: KeyError when the key is
absent from the dict, TypeError when `v` is not a dict. -/
def Json.subscript : Json → String → Except PyFault Json
  | .obj fs, key =>
      match fs.lookup key with
      | some x => .ok x
      | none => .error (.keyError key)
  | _, _ => .error (.typeError "not subscriptable")

/-- Python iteration (`for x in v`): lists yield elements, strings yield
one-character strings, dicts yield their keys, the rest are not iterable. -/
def Json.asIterList : Json → Except PyFault (List Json)
  | .arr xs => .ok xs
  | .str s => .ok (s.data.map (fun c => Json.str (String.mk [c])))
  | .obj fs => .ok (fs.map (fun kv => Json.str kv.1))
  | _ => .error (.typeError "not iterable")

/-- Python `str.strip()` with no argument: remove leading and trailing
whitespace (modelled with `Char.isWhitespace`; structurally recursive so
concrete inputs evaluate in the kernel). -/
def pyStrip (s : String) : String :=
  String.mk (((s.data.dropWhile Char.isWhitespace).reverse.dropWhile Char.isWhitespace).reverse)

/-- Python `c in s` for a single character. -/
def pyContainsChar (s : String) (c : Char) : Bool :=
  s.data.contains c

/-- Python `str.replace(pattern, replacement)` for a single-character pattern
(the only form the SDK uses): every occurrence is substituted. -/
def pyReplaceChar (s : String) (pattern : Char) (replacement : String) : String :=
  String.mk (s.data.flatMap (fun c => if c = pattern then replacement.data else [c]))

/-- Sequential mapping of a fallible element function over a list, as a
Python list comprehension evaluates: the first raised exception aborts the
whole comprehension. -/
def mapExcept {α β : Type} (f : α → Except PyFault β) : List α → Except PyFault (List β)
  | [] => .ok []
  | x :: xs => do
      let y ← f x
      let ys ← mapExcept f xs
      return y :: ys

/-- Truthiness of a Python `list[str] | None` value. -/
def optListTruthy (x : Option (List String)) : Bool :=
  match x with
  | none => false
  | some l => !l.isEmpty

/-- Truthiness of a Python `dict | None` value. -/
def optDictTruthy (x : Option (List (String × String))) : Bool :=
  match x with
  | none => false
  | some l => !l.isEmpty

/-- Truthiness of a Python `int | None` value. -/
def optIntTruthy (x : Option Int) : Bool :=
  match x with
  | none => false
  | some n => n != 0

/-- Truthiness of a Python `str | None` value. -/
def optStrTruthy (x : Option String) : Bool :=
  match x with
  | none => false
  | some s => s != ""

/-- Embedding of `kaizen.models.akuma.Guardrails` (src/kaizen/models/akuma.py,
lines 7-16): all optional fields are `Option`, `none` standing for Python None. -/
structure Guardrails where
  read_only : Bool
  allow_tables : Option (List String)
  deny_tables : Option (List String)
  deny_columns : Option (List String)
  max_rows : Option Int
  timeout_secs : Option Int
  deriving DecidableEq

/-- One `if self.x: payload[key] = self.x` statement for a `list[str] | None`
field: emit the key-value pair only when the value is Python-truthy. -/
def guardSegList (key : String) (x : Option (List String)) : List (String × Json) :=
  match x with
  | some l => if l.isEmpty then [] else [(key, Json.arr (l.map Json.str))]
  | none => []

/-- One `if self.x: payload[key] = self.x` statement for an `int | None`
field: emit the key-value pair only when the value is Python-truthy. -/
def guardSegInt (key : String) (x : Option Int) : List (String × Json) :=
  match x with
  | some n => if n == 0 then [] else [(key, Json.num n)]
  | none => []

/-- Embedding of `Guardrails.to_dict` (src/kaizen/models/akuma.py, lines 18-30):
each optional field is serialized only when Python-truthy, in statement order. -/
def Guardrails.to_dict (g : Guardrails) : List (String × Json) :=
  [("readOnly", Json.bool g.read_only)]
  ++ guardSegList "allowTables" g.allow_tables
  ++ guardSegList "denyTables" g.deny_tables
  ++ guardSegList "denyColumns" g.deny_columns
  ++ guardSegInt "maxRows" g.max_rows
  ++ guardSegInt "timeoutSecs" g.timeout_secs

/-- SDK version constant (src/kaizen/http.py, line 9). -/
def SDK_VERSION : String := "1.0.0"

/-- Kinds of the four exception classes of src/kaizen/errors.py, so callers
can distinguish them structurally (the Python classes are distinguished by
their runtime type). -/
inductive KaizenExcKind where
  | generic
  | auth
  | rateLimit
  | validation
  deriving DecidableEq

/-- Embedding of the `KaizenError` exception hierarchy of src/kaizen/errors.py:
one record carrying the union of the attributes, tagged with the class kind. -/
structure KaizenExc where
  kind : KaizenExcKind
  message : String
  status : Option Int
  code : Option String
  requestId : Option String
  retryAfter : Option Int
  offendingField : Option String
  deriving DecidableEq

/-- Construction of `KaizenError(message, status, code, request_id)`
(src/kaizen/errors.py, lines 4-17). -/
def kaizenError (message : String) (status : Option Int) (code : Option String)
    (requestId : Option String) : KaizenExc :=
  ⟨.generic, message, status, code, requestId, none, none⟩

/-- Construction of `KaizenAuthError(message, request_id)`
(src/kaizen/errors.py, lines 20-24): status fixed at 401, code "AUTH_ERROR". -/
def kaizenAuthError (message : String) (requestId : Option String) : KaizenExc :=
  ⟨.auth, message, some 401, some "AUTH_ERROR", requestId, none, none⟩

/-- Construction of `KaizenRateLimitError(message, retry_after, request_id)`
(src/kaizen/errors.py, lines 27-37): status fixed at 429, code "RATE_LIMIT". -/
def kaizenRateLimitError (message : String) (retryAfter : Option Int)
    (requestId : Option String) : KaizenExc :=
  ⟨.rateLimit, message, some 429, some "RATE_LIMIT", requestId, retryAfter, none⟩

/-- Construction of `KaizenValidationError(message, field, request_id)`
(src/kaizen/errors.py, lines 40-45): status fixed at 400, code "VALIDATION_ERROR". -/
def kaizenValidationError (message : String) (fieldName : Option String)
    (requestId : Option String) : KaizenExc :=
  ⟨.validation, message, some 400, some "VALIDATION_ERROR", requestId, none, fieldName⟩

/-- Observable content of one HTTP response as the transport hands it to
`HttpClient._request`: the status code, the two response headers the SDK reads,
the outcome of `response.json()` (`none` models the ValueError of a failed
parse) and the raw body text `response.text`. -/
structure HttpResponse where
  status : Nat
  retryAfterHeader : Option String
  xRequestId : Option String
  jsonParse : Option Json
  text : String

/-- What one transport round trip produced: either an `httpx.RequestError`
carrying its message, or an HTTP response. -/
inductive TransportResult where
  | requestError (msg : String)
  | response (r : HttpResponse)

/-- A pluggable transport: for a (path, request body) pair, the result of the
round trip. Used to express that an operation never invokes the network. -/
def Transport : Type :=
  String → Json → TransportResult

/-- Embedding of `HttpClient._parse_json` (src/kaizen/http.py, lines 76-84):
parse failure falls back to the stripped body text as an error field (empty
object when blank), a parsed dict is returned as-is, and any other parsed
JSON value yields the empty object. -/
def HttpClient.parse_json (r : HttpResponse) : List (String × Json) :=
  match r.jsonParse with
  | none =>
      let t := pyStrip r.text
      if t = "" then [] else [("error", Json.str t)]
  | some (.obj fields) => fields
  | some _ => []

/-- Embedding of `str(data.get("error") or "Request failed")`
(src/kaizen/http.py, line 58). -/
def errorMessage (data : List (String × Json)) : String :=
  let e := pyDictGet data "error"
  if e.truthy then e.pyStr else "Request failed"

/-- Parse a non-empty all-digit character list as a natural number;
`none` models a Python ValueError. -/
def pyDigits (ds : List Char) : Option Nat :=
  if ds ≠ [] ∧ ds.all Char.isDigit then
    some (ds.foldl (fun acc c => acc * 10 + (c.toNat - 48)) 0)
  else none

/-- Embedding of Python `int(s)` on a string: strip whitespace, optional
sign, decimal digits (digit-group underscores are not modelled; no claim
uses them). `none` models the ValueError. -/
def pyToInt (s : String) : Option Int :=
  match (pyStrip s).data with
  | '-' :: ds => (pyDigits ds).map (fun n => -(n : Int))
  | '+' :: ds => (pyDigits ds).map (fun n => (n : Int))
  | ds => (pyDigits ds).map (fun n => (n : Int))

/-- Result of one `HttpClient._request` call: the parsed body on success, a
raised `KaizenError` subclass, or an uncaught Python exception (only the
`int()` conversion of a malformed Retry-After header can produce one). -/
inductive RequestOutcome where
  | success (data : List (String × Json))
  | sdkError (e : KaizenExc)
  | pyError (f : PyFault)

/-- Embedding of the header construction in `HttpClient._request`
(src/kaizen/http.py, lines 48-52), in insertion order. -/
def HttpClient.buildHeaders (apiKey : String) (method : String) : List (String × String) :=
  [("User-Agent", "kaizen-python/" ++ SDK_VERSION)]
  ++ (if method ≠ "GET" then [("Content-Type", "application/json")] else [])
  ++ (if apiKey ≠ "" then [("Authorization", "Bearer " ++ apiKey)] else [])

/-- Embedding of the response-classification part of `HttpClient._request`
(src/kaizen/http.py, lines 54-74), as a function of the transport result.
The URL and headers do not influence classification; `path` is threaded
through untouched to mirror the signature. -/
def HttpClient.request (apiKey method path : String) (transport : TransportResult) :
    RequestOutcome :=
  match transport with
  | .requestError msg =>
      .sdkError (kaizenError ("Request failed: " ++ msg) none none none)
  | .response r =>
      let data := HttpClient.parse_json r
      let requestId := r.xRequestId
      let message := errorMessage data
      if r.status = 401 then
        .sdkError (kaizenAuthError message requestId)
      else if r.status = 429 then
        match r.retryAfterHeader with
        | some s =>
            if s ≠ "" then
              match pyToInt s with
              | some n => .sdkError (kaizenRateLimitError message (some n) requestId)
              | none => .pyError (.valueError s)
            else .sdkError (kaizenRateLimitError message none requestId)
        | none => .sdkError (kaizenRateLimitError message none requestId)
      else if r.status ≥ 400 then
        .sdkError (kaizenError message (some (r.status : Int)) none requestId)
      else
        .success data

/-- Embedding of `HttpClient.post` (src/kaizen/http.py, lines 38-39) against a
pluggable transport. -/
def HttpClient.post (apiKey : String) (transport : Transport) (path : String)
    (data : List (String × Json)) : RequestOutcome :=
  HttpClient.request apiKey "POST" path (transport path (.obj data))

/-- Embedding of the api-key resolution in `KaizenClient.__init__`
(src/kaizen/client.py, line 20): `api_key or os.environ.get("KAIZEN_API_KEY", "")`,
with the environment variable passed in as an `Option String`. -/
def KaizenClient.resolveApiKey (apiKey : Option String) (envKaizenApiKey : Option String) :
    String :=
  match apiKey with
  | some k => if k ≠ "" then k else envKaizenApiKey.getD ""
  | none => envKaizenApiKey.getD ""

/-- Result of one service-client operation: the typed response, a raised
`KaizenError` subclass, or an uncaught Python exception. -/
inductive CallResult (α : Type) where
  | ok (a : α)
  | sdkError (e : KaizenExc)
  | pyError (f : PyFault)

/-- Embedding of `kaizen.models.akuma.AkumaQueryResponse`
(src/kaizen/models/akuma.py, lines 33-42); Python stores whatever JSON value
the wire supplied without checking the annotations, so fields hold `Json`
(`Json.null` standing for None). -/
structure AkumaQueryResponse where
  sql : Json
  rows : Json
  explanation : Json
  tables : Json
  warnings : Json
  error : Json

/-- Embedding of the request-payload construction in `AkumaClient.query`
(src/kaizen/services/akuma.py, lines 30-38): maxRows and guardrails are
included only when Python-truthy. -/
def AkumaClient.queryPayload (dialect prompt mode : String) (max_rows : Option Int)
    (guardrails : Option Guardrails) : List (String × Json) :=
  [("dialect", Json.str dialect), ("prompt", Json.str prompt), ("mode", Json.str mode)]
  ++ guardSegInt "maxRows" max_rows
  ++ (match guardrails with
      | some g => [("guardrails", Json.obj g.to_dict)]
      | none => [])

/-- Embedding of the response mapping in `AkumaClient.query`
(src/kaizen/services/akuma.py, lines 42-49). -/
def AkumaClient.mapQueryResponse (result : List (String × Json)) : AkumaQueryResponse :=
  ⟨pyDictGetD result "sql" (.str ""),
   pyDictGet result "rows",
   pyDictGet result "explanation",
   pyDictGet result "tables",
   pyDictGet result "warnings",
   pyDictGet result "error"⟩

/-- Embedding of `AkumaClient.query` (src/kaizen/services/akuma.py, lines 22-49)
against a pluggable transport. -/
def AkumaClient.query (apiKey dialect prompt mode : String) (max_rows : Option Int)
    (guardrails : Option Guardrails) (transport : Transport) :
    CallResult AkumaQueryResponse :=
  let payload := AkumaClient.queryPayload dialect prompt mode max_rows guardrails
  match HttpClient.post apiKey transport "/v1/akuma/query" payload with
  | .success result => .ok (AkumaClient.mapQueryResponse result)
  | .sdkError e => .sdkError e
  | .pyError f => .pyError f

/-- Embedding of `kaizen.models.enzan.EnzanSummaryRow`
(src/kaizen/models/enzan.py, lines 8-20); fields hold the JSON values the
mapper supplied, unvalidated, exactly as the Python dataclass does. -/
structure EnzanSummaryRow where
  cost_usd : Json
  gpu_hours : Json
  requests : Json
  tokens_in : Json
  tokens_out : Json
  project : Json
  model : Json
  team : Json
  provider : Json

/-- Embedding of `kaizen.models.enzan.EnzanSummaryResponse`
(src/kaizen/models/enzan.py, lines 23-33). The dataclass declares exactly the
seven fields below: it has no field for API costs. -/
structure EnzanSummaryResponse where
  window : Json
  start_time : Json
  end_time : Json
  rows : List EnzanSummaryRow
  total_cost_usd : Json
  total_gpu_hours : Json
  total_requests : Json

/-- Embedding of the per-row mapping inside `EnzanClient.summary`
(src/kaizen/services/enzan.py, lines 36-46): every field is optional with an
explicit default (numerics default to 0, grouping labels to None). -/
def EnzanClient.mapSummaryRow (row : Json) : Except PyFault EnzanSummaryRow := do
  let cost_usd ← row.getD "cost_usd" (.num 0)
  let gpu_hours ← row.getD "gpu_hours" (.num 0)
  let requests ← row.getD "requests" (.num 0)
  let tokens_in ← row.getD "tokens_in" (.num 0)
  let tokens_out ← row.getD "tokens_out" (.num 0)
  let project ← row.get "project"
  let model ← row.get "model"
  let team ← row.get "team"
  let provider ← row.get "provider"
  return ⟨cost_usd, gpu_hours, requests, tokens_in, tokens_out,
          project, model, team, provider⟩

/-- Embedding of the response mapping in `EnzanClient.summary`
(src/kaizen/services/enzan.py, lines 34-59), as a function of the posted
body `result` and the `window` argument (whose only use is as the default
for the `window` field). -/
def EnzanClient.mapSummary (window : String) (result : List (String × Json)) :
    Except PyFault EnzanSummaryResponse := do
  let rawRows ← (pyDictGetD result "rows" (.arr [])).asIterList
  let rows ← mapExcept EnzanClient.mapSummaryRow rawRows
  let total := pyDictGetD result "total" (.obj [])
  let total_cost_usd ← total.getD "cost_usd" (.num 0)
  let total_gpu_hours ← total.getD "gpu_hours" (.num 0)
  let total_requests ← total.getD "requests" (.num 0)
  return ⟨pyDictGetD result "window" (.str window),
          pyDictGetD result "startTime" (.str ""),
          pyDictGetD result "endTime" (.str ""),
          rows, total_cost_usd, total_gpu_hours, total_requests⟩

/-- Embedding of `kaizen.models.enzan.EnzanResource`
(src/kaizen/models/enzan.py, lines 36-46); fields hold the JSON values the
mapper supplied, unvalidated (`Json.null` standing for None). -/
structure EnzanResource where
  id : Json
  provider : Json
  gpu_type : Json
  gpu_count : Json
  hourly_rate : Json
  region : Json
  labels : Json

/-- Embedding of the per-resource mapping inside `EnzanClient.list_resources`
(src/kaizen/services/enzan.py, lines 70-81): the five required fields use
dict subscription (KeyError when absent), region and labels use `.get`. -/
def EnzanClient.mapResource (resource : Json) : Except PyFault EnzanResource := do
  let i ← resource.subscript "id"
  let p ← resource.subscript "provider"
  let gt ← resource.subscript "gpuType"
  let gc ← resource.subscript "gpuCount"
  let hr ← resource.subscript "hourlyRate"
  let rg ← resource.get "region"
  let lb ← resource.get "labels"
  return ⟨i, p, gt, gc, hr, rg, lb⟩

/-- Embedding of the mapping in `EnzanClient.list_resources`
(src/kaizen/services/enzan.py, lines 68-81), as a function of the fetched
body `result`. -/
def EnzanClient.list_resources (result : List (String × Json)) :
    Except PyFault (List EnzanResource) := do
  let rs ← (pyDictGetD result "resources" (.arr [])).asIterList
  mapExcept EnzanClient.mapResource rs

/-- Embedding of `kaizen.models.sozo.SozoColumnStats`
(src/kaizen/models/sozo.py, lines 8-17); fields hold the JSON values the
mapper supplied, unvalidated. -/
structure SozoColumnStats where
  type : Json
  min : Json
  max : Json
  mean : Json
  unique_count : Json
  values : Json

/-- Embedding of `kaizen.models.sozo.SozoGenerateResponse`
(src/kaizen/models/sozo.py, lines 20-26); columns and rows hold whatever
JSON values were supplied, as the Python dataclass does. -/
structure SozoGenerateResponse where
  columns : Json
  rows : Json
  stats : List (String × SozoColumnStats)

/-- Embedding of the per-column stats mapping inside `SozoClient.generate`
(src/kaizen/services/sozo.py, lines 42-49). -/
def SozoClient.mapStat (stat : Json) : Except PyFault SozoColumnStats := do
  let t ← stat.getD "type" (.str "unknown")
  let mn ← stat.get "min"
  let mx ← stat.get "max"
  let me ← stat.get "mean"
  let uc ← stat.get "uniqueCount"
  let vs ← stat.get "values"
  return ⟨t, mn, mx, me, uc, vs⟩

/-- Embedding of the stats loop in `SozoClient.generate`
(src/kaizen/services/sozo.py, lines 40-49): `.items()` requires a dict
(AttributeError otherwise), and insertion order is preserved. -/
def SozoClient.mapStatsDict (stats : Json) : Except PyFault (List (String × SozoColumnStats)) :=
  match stats with
  | .obj fs => mapExcept (fun kv => (SozoClient.mapStat kv.2).map (fun st => (kv.1, st))) fs
  | _ => .error (.attributeError "items")

/-- Embedding of the request-payload construction in `SozoClient.generate`
(src/kaizen/services/sozo.py, lines 28-36): schema, schemaName and
correlations are included only when Python-truthy, seed when not None. -/
def SozoClient.generatePayload (records : Int) (schema : Option (List (String × String)))
    (schema_name : Option String) (correlations : Option (List (String × String)))
    (seed : Option Int) : List (String × Json) :=
  [("records", Json.num records)]
  ++ (if optDictTruthy schema then
        [("schema", Json.obj ((schema.getD []).map (fun kv => (kv.1, Json.str kv.2))))]
      else [])
  ++ (if optStrTruthy schema_name then
        [("schemaName", Json.str (schema_name.getD ""))]
      else [])
  ++ (if optDictTruthy correlations then
        [("correlations", Json.obj ((correlations.getD []).map (fun kv => (kv.1, Json.str kv.2))))]
      else [])
  ++ (match seed with
      | some n => [("seed", Json.num n)]
      | none => [])

/-- Embedding of `SozoClient.generate` (src/kaizen/services/sozo.py, lines
17-55) against a pluggable transport: the schema/schema_name validation runs
before the payload is built or the transport is invoked. -/
def SozoClient.generate (apiKey : String) (records : Int)
    (schema : Option (List (String × String))) (schema_name : Option String)
    (correlations : Option (List (String × String))) (seed : Option Int)
    (transport : Transport) : CallResult SozoGenerateResponse :=
  if !optDictTruthy schema && !optStrTruthy schema_name then
    .sdkError (kaizenValidationError "Either schema or schema_name is required" none none)
  else
    match HttpClient.post apiKey transport "/v1/sozo/generate"
        (SozoClient.generatePayload records schema schema_name correlations seed) with
    | .success result =>
        match SozoClient.mapStatsDict (pyDictGetD result "stats" (.obj [])) with
        | .ok stats =>
            .ok ⟨pyDictGetD result "columns" (.arr []),
                 pyDictGetD result "rows" (.arr []), stats⟩
        | .error f => .pyError f
    | .sdkError e => .sdkError e
    | .pyError f => .pyError f

/-- Embedding of the local `escape` helper in `SozoGenerateResponse.to_csv`
(src/kaizen/models/sozo.py, lines 31-37). -/
def pyEscapeCsv (value : Json) : String :=
  match value with
  | .null => ""
  | v =>
      let raw := v.pyStr
      if pyContainsChar raw ',' || pyContainsChar raw '\"' then
        "\"" ++ pyReplaceChar raw '\"' "\"\"" ++ "\""
      else raw

/-- One joined element in Python `sep.join(v)`: must be a string. -/
def pyStrElem : Json → Except PyFault String
  | Json.str s => .ok s
  | _ => .error (.typeError "sequence item: expected str instance")

/-- Embedding of Python `sep.join(v)`: iterate `v`, requiring every element
to be a string. -/
def pyJoin (sep : String) (v : Json) : Except PyFault String := do
  let parts ← v.asIterList
  let strs ← mapExcept pyStrElem parts
  return String.intercalate sep strs

/-- Embedding of `row.get(column)` in `to_csv`: `row` must be a dict;
a non-string column name cannot match a string key (container keys are
unhashable, other scalars simply miss). -/
def pyRowGet (row : Json) (key : Json) : Except PyFault Json :=
  match row with
  | .obj fs =>
      match key with
      | .str s => .ok (pyDictGet fs s)
      | .arr _ => .error (.typeError "unhashable type")
      | .obj _ => .error (.typeError "unhashable type")
      | _ => .ok .null
  | _ => .error (.attributeError "get")

/-- One data line of `to_csv`: the generator expression
`",".join(escape(row.get(column)) for column in self.columns)`
(src/kaizen/models/sozo.py, line 41). -/
def csvLine (cols : List Json) (row : Json) : Except PyFault String := do
  let cells ← mapExcept (fun c => (pyRowGet row c).map pyEscapeCsv) cols
  return String.intercalate "," cells

/-- Embedding of `SozoGenerateResponse.to_csv` (src/kaizen/models/sozo.py,
lines 28-42). -/
def SozoGenerateResponse.to_csv (r : SozoGenerateResponse) : Except PyFault String := do
  let header ← pyJoin "," r.columns
  let cols ← r.columns.asIterList
  let rowList ← r.rows.asIterList
  let dataLines ← mapExcept (csvLine cols) rowList
  return String.intercalate "\n" (header :: dataLines)

/-- CSV escaping as the specification words it: a cell containing a comma or
a double-quote is wrapped in double quotes with internal double-quotes
doubled; otherwise the cell is verbatim. -/
def csvQuoteSpec (s : String) : String :=
  if pyContainsChar s ',' || pyContainsChar s '\"' then
    "\"" ++ pyReplaceChar s '\"' "\"\"" ++ "\""
  else s

/-- One CSV cell as the specification words it: an absent cell maps to the
empty string, a present cell to its escaped textual form. -/
def csvCellSpec (row : List (String × Json)) (c : String) : String :=
  match row.lookup c with
  | none => ""
  | some Json.null => ""
  | some v => csvQuoteSpec v.pyStr

/-- CSV output as the specification words it: first line the comma-joined
column names verbatim, each data line the per-column cells in column order. -/
def csvSpec (cols : List String) (rows : List (List (String × Json))) : String :=
  String.intercalate "\n"
    (String.intercalate "," cols
      :: rows.map (fun row => String.intercalate "," (cols.map (csvCellSpec row))))

/-! Helper lemmas shared by the claim theorems. -/

lemma dictKeys_append (a b : List (String × Json)) :
    dictKeys (a ++ b) = dictKeys a ++ dictKeys b :=
  List.map_append _ _ _

lemma dictKeys_cons (a : String) (v : Json) (rest : List (String × Json)) :
    dictKeys ((a, v) :: rest) = a :: dictKeys rest := rfl

lemma dictKeys_nil : dictKeys [] = [] := rfl

lemma mem_keys_guardSegList (k key : String) (x : Option (List String)) :
    k ∈ dictKeys (guardSegList key x) ↔ (k = key ∧ optListTruthy x = true) := by
  cases x with
  | none => simp [guardSegList, optListTruthy, dictKeys]
  | some l => cases hl : l.isEmpty <;> simp [guardSegList, optListTruthy, dictKeys, hl]

lemma mem_keys_guardSegInt (k key : String) (x : Option Int) :
    k ∈ dictKeys (guardSegInt key x) ↔ (k = key ∧ optIntTruthy x = true) := by
  cases x with
  | none => simp [guardSegInt, optIntTruthy, dictKeys]
  | some n =>
      cases hn : n == 0 with
      | false =>
          have hn' : n ≠ 0 := by simpa using hn
          simp [guardSegInt, optIntTruthy, dictKeys, hn, hn']
      | true =>
          have hn' : n = 0 := by simpa using hn
          simp [guardSegInt, optIntTruthy, dictKeys, hn, hn']

/-- Claim C4 counterexample: a Guardrails value with `read_only` and
`max_rows` both set, but `max_rows = 0`, serializes to a payload whose only
key is readOnly — the maxRows key is dropped because 0 is Python-falsy. -/
theorem guardrails_zero_max_rows_drops_key :
    Guardrails.to_dict ⟨true, none, none, none, some 0, none⟩ = [("readOnly", Json.bool true)]
    ∧ "maxRows" ∉ dictKeys (Guardrails.to_dict ⟨true, none, none, none, some 0, none⟩) :=
  ⟨rfl, by decide⟩

/-- Claim C4 (amended): for every Guardrails value with only `read_only` and
`max_rows` set and `max_rows` nonzero, the serialized payload is exactly
the two keys readOnly and maxRows, in that order, and nothing else. -/
theorem guardrails_only_read_only_max_rows_payload (b : Bool) (n : Int) (h : n ≠ 0) :
    Guardrails.to_dict ⟨b, none, none, none, some n, none⟩
      = [("readOnly", Json.bool b), ("maxRows", Json.num n)] := by
  have hb : (n == 0) = false := by simpa using h
  simp [Guardrails.to_dict, guardSegList, guardSegInt, hb]

/-- Witness for the amended claim C4 at the concrete Guardrails of the
repository's own test. -/
theorem guardrails_only_read_only_max_rows_payload_witness :
    Guardrails.to_dict ⟨true, none, none, none, some 100, none⟩
      = [("readOnly", Json.bool true), ("maxRows", Json.num 100)] :=
  guardrails_only_read_only_max_rows_payload true 100 (by decide)

/-- Claim C10: `Guardrails.to_dict` omits an optional field whenever its
value is Python-falsy, not only when it is unset — max_rows 0, timeout_secs
0 or an empty allow/deny list produce no key — and `AkumaClient.query`
likewise omits maxRows from the request payload when max_rows is 0. -/
theorem guardrails_omits_falsy_fields :
    (∀ g : Guardrails, ("maxRows" ∈ dictKeys g.to_dict ↔ optIntTruthy g.max_rows = true))
    ∧ (∀ g : Guardrails,
        ("timeoutSecs" ∈ dictKeys g.to_dict ↔ optIntTruthy g.timeout_secs = true))
    ∧ (∀ g : Guardrails,
        ("allowTables" ∈ dictKeys g.to_dict ↔ optListTruthy g.allow_tables = true))
    ∧ (∀ g : Guardrails,
        ("denyTables" ∈ dictKeys g.to_dict ↔ optListTruthy g.deny_tables = true))
    ∧ (∀ g : Guardrails,
        ("denyColumns" ∈ dictKeys g.to_dict ↔ optListTruthy g.deny_columns = true))
    ∧ Guardrails.to_dict ⟨true, some [], some [], some [], some 0, some 0⟩
        = [("readOnly", Json.bool true)]
    ∧ (∀ (dialect prompt mode : String) (guardrails : Option Guardrails),
        "maxRows" ∉ dictKeys (AkumaClient.queryPayload dialect prompt mode (some 0) guardrails)) := by
  refine ⟨?_, ?_, ?_, ?_, ?_, rfl, ?_⟩
  · intro g
    simp only [Guardrails.to_dict, dictKeys_append, List.mem_append,
               mem_keys_guardSegList, mem_keys_guardSegInt,
               dictKeys_cons, dictKeys_nil, List.mem_cons, List.not_mem_nil]
    simp
  · intro g
    simp only [Guardrails.to_dict, dictKeys_append, List.mem_append,
               mem_keys_guardSegList, mem_keys_guardSegInt,
               dictKeys_cons, dictKeys_nil, List.mem_cons, List.not_mem_nil]
    simp
  · intro g
    simp only [Guardrails.to_dict, dictKeys_append, List.mem_append,
               mem_keys_guardSegList, mem_keys_guardSegInt,
               dictKeys_cons, dictKeys_nil, List.mem_cons, List.not_mem_nil]
    simp
  · intro g
    simp only [Guardrails.to_dict, dictKeys_append, List.mem_append,
               mem_keys_guardSegList, mem_keys_guardSegInt,
               dictKeys_cons, dictKeys_nil, List.mem_cons, List.not_mem_nil]
    simp
  · intro g
    simp only [Guardrails.to_dict, dictKeys_append, List.mem_append,
               mem_keys_guardSegList, mem_keys_guardSegInt,
               dictKeys_cons, dictKeys_nil, List.mem_cons, List.not_mem_nil]
    simp
  · intro dialect prompt mode guardrails
    cases guardrails <;>
      · simp only [AkumaClient.queryPayload, dictKeys_append, List.mem_append,
                   mem_keys_guardSegInt, dictKeys_cons, dictKeys_nil,
                   List.mem_cons, List.not_mem_nil]
        simp [guardSegInt, optIntTruthy, dictKeys]

/-- Witness for claim C10 at concrete Guardrails values: max_rows 100 yields
the maxRows key while max_rows 0 does not, and a set-but-empty deny_tables
list yields no denyTables key while a non-empty one does. -/
theorem guardrails_omits_falsy_fields_witness :
    ("maxRows" ∈ dictKeys (Guardrails.to_dict ⟨true, none, none, none, some 100, none⟩))
    ∧ "maxRows" ∉ dictKeys (Guardrails.to_dict ⟨true, none, none, none, some 0, none⟩)
    ∧ ("denyTables" ∈ dictKeys (Guardrails.to_dict ⟨true, none, some ["pii"], none, none, none⟩))
    ∧ "denyTables" ∉ dictKeys (Guardrails.to_dict ⟨true, none, some [], none, none, none⟩) := by
  refine ⟨?_, ?_, ?_, ?_⟩
  · exact (guardrails_omits_falsy_fields.1 ⟨true, none, none, none, some 100, none⟩).mpr rfl
  · intro hmem
    have h0 := (guardrails_omits_falsy_fields.1 ⟨true, none, none, none, some 0, none⟩).mp hmem
    simp [optIntTruthy] at h0
  · exact (guardrails_omits_falsy_fields.2.2.2.1
      ⟨true, none, some ["pii"], none, none, none⟩).mpr rfl
  · intro hmem
    have h0 := (guardrails_omits_falsy_fields.2.2.2.1
      ⟨true, none, some [], none, none, none⟩).mp hmem
    simp [optListTruthy] at h0

/-- Claim C6: calling Sōzō generate with neither a schema nor a schema name
raises the validation error locally, and the outcome is identical for every
transport — the transport is never invoked, no request payload is sent. -/
theorem sozo_generate_without_schema_fails_before_network :
    ∀ (apiKey : String) (records : Int) (correlations : Option (List (String × String)))
      (seed : Option Int) (t t' : Transport),
      SozoClient.generate apiKey records none none correlations seed t
        = .sdkError (kaizenValidationError "Either schema or schema_name is required" none none)
      ∧ SozoClient.generate apiKey records none none correlations seed t
        = SozoClient.generate apiKey records none none correlations seed t' := by
  intro apiKey records correlations seed t t'
  exact ⟨rfl, rfl⟩

lemma bearer_append_ne_bearer (key : String) (hk : key ≠ "") :
    "Bearer " ++ key ≠ "Bearer " := by
  intro h
  apply hk
  have hlen := congrArg String.length h
  rw [String.length_append] at hlen
  have h0 : key.length = 0 := by omega
  exact String.ext (List.length_eq_zero.mp h0)

/-- Claim C7: the Authorization header is attached exactly when a non-empty
key is configured — an empty key omits the header entirely and a header is
never the bare "Bearer " value — and `KaizenClient.__init__` falls back to
the KAIZEN_API_KEY environment variable when no key is passed explicitly. -/
theorem http_bearer_header_and_env_fallback :
    (∀ method : String, (HttpClient.buildHeaders "" method).lookup "Authorization" = none)
    ∧ (∀ key method : String, key ≠ "" →
        (HttpClient.buildHeaders key method).lookup "Authorization"
          = some ("Bearer " ++ key))
    ∧ (∀ key method s : String,
        ("Authorization", s) ∈ HttpClient.buildHeaders key method → s ≠ "Bearer ")
    ∧ (∀ env : Option String, KaizenClient.resolveApiKey none env = env.getD "")
    ∧ (∀ env : Option String, KaizenClient.resolveApiKey (some "") env = env.getD "")
    ∧ (∀ (k : String) (env : Option String), k ≠ "" →
        KaizenClient.resolveApiKey (some k) env = k) := by
  refine ⟨?_, ?_, ?_, ?_, ?_, ?_⟩
  · intro method
    by_cases hm : method = "GET" <;>
      simp [HttpClient.buildHeaders, hm, List.lookup]
  · intro key method hk
    by_cases hm : method = "GET" <;>
      simp [HttpClient.buildHeaders, hm, hk, List.lookup]
  · intro key method s hmem
    by_cases hk : key = ""
    · by_cases hm : method = "GET" <;>
        simp [HttpClient.buildHeaders, hm, hk] at hmem
    · by_cases hm : method = "GET" <;>
        · simp [HttpClient.buildHeaders, hm, hk] at hmem
          subst hmem
          exact bearer_append_ne_bearer key hk
  · intro env
    rfl
  · intro env
    rfl
  · intro k env hk
    simp [KaizenClient.resolveApiKey, hk]

/-- Witness for claim C7 at concrete keys: a configured key "secret" yields
the Bearer header, the empty key yields none, and the environment value is
used when the constructor gets no key. -/
theorem http_bearer_header_and_env_fallback_witness :
    (HttpClient.buildHeaders "" "GET").lookup "Authorization" = none
    ∧ (HttpClient.buildHeaders "secret" "POST").lookup "Authorization"
        = some ("Bearer " ++ "secret")
    ∧ KaizenClient.resolveApiKey none (some "env-key") = "env-key"
    ∧ KaizenClient.resolveApiKey (some "explicit") (some "env-key") = "explicit" := by
  refine ⟨?_, ?_, ?_, ?_⟩
  · exact http_bearer_header_and_env_fallback.1 "GET"
  · exact http_bearer_header_and_env_fallback.2.1 "secret" "POST" (by decide)
  · exact http_bearer_header_and_env_fallback.2.2.2.1 (some "env-key")
  · exact http_bearer_header_and_env_fallback.2.2.2.2.2 "explicit" (some "env-key") (by decide)

/-- Claim C2 counterexample: a response body that parses to the JSON scalar 5
is mapped by `_parse_json` to the empty object, not to an object with an
error field as the claim states. -/
theorem parse_json_scalar_counterexample :
    HttpClient.parse_json ⟨200, none, none, some (Json.num 5), "5"⟩ = []
    ∧ "error" ∉ dictKeys (HttpClient.parse_json ⟨200, none, none, some (Json.num 5), "5"⟩) :=
  ⟨rfl, by decide⟩

/-- Claim C2 (amended): `_parse_json` always returns a JSON object and never
raises: an unparsable non-empty body yields an object with the stripped text
under the error key, an unparsable empty (or whitespace-only) body yields
the empty object, a parsed object is returned as-is, and a parsed scalar or
array yields the empty object (not an error-wrapping object). -/
theorem parse_json_always_object (r : HttpResponse) :
    (r.jsonParse = none → pyStrip r.text ≠ "" →
      HttpClient.parse_json r = [("error", Json.str (pyStrip r.text))])
    ∧ (r.jsonParse = none → pyStrip r.text = "" → HttpClient.parse_json r = [])
    ∧ (∀ fields, r.jsonParse = some (Json.obj fields) → HttpClient.parse_json r = fields)
    ∧ (∀ j, r.jsonParse = some j → (∀ fields, j ≠ Json.obj fields) →
        HttpClient.parse_json r = []) := by
  refine ⟨?_, ?_, ?_, ?_⟩
  · intro hp ht
    simp [HttpClient.parse_json, hp, ht]
  · intro hp ht
    simp [HttpClient.parse_json, hp, ht]
  · intro fields hp
    simp [HttpClient.parse_json, hp]
  · intro j hp hne
    cases j with
    | obj fields => exact absurd rfl (hne fields)
    | null => simp [HttpClient.parse_json, hp]
    | bool b => simp [HttpClient.parse_json, hp]
    | num n => simp [HttpClient.parse_json, hp]
    | str s => simp [HttpClient.parse_json, hp]
    | arr xs => simp [HttpClient.parse_json, hp]

/-- Witness for claim C2 (amended) at concrete responses: an unparsable body
" boom ", a whitespace-only unparsable body, a parsed object, and a parsed
array. -/
theorem parse_json_always_object_witness :
    HttpClient.parse_json ⟨200, none, none, none, " boom "⟩ = [("error", Json.str "boom")]
    ∧ HttpClient.parse_json ⟨200, none, none, none, "  "⟩ = []
    ∧ HttpClient.parse_json ⟨200, none, none, some (Json.obj [("a", Json.num 1)]), ""⟩
        = [("a", Json.num 1)]
    ∧ HttpClient.parse_json ⟨200, none, none, some (Json.arr [Json.num 1]), "[1]"⟩ = [] := by
  refine ⟨?_, ?_, ?_, ?_⟩
  · exact (parse_json_always_object ⟨200, none, none, none, " boom "⟩).1 rfl (by decide)
  · exact (parse_json_always_object ⟨200, none, none, none, "  "⟩).2.1 rfl (by decide)
  · exact (parse_json_always_object
      ⟨200, none, none, some (Json.obj [("a", Json.num 1)]), ""⟩).2.2.1 _ rfl
  · exact (parse_json_always_object
      ⟨200, none, none, some (Json.arr [Json.num 1]), "[1]"⟩).2.2.2 _ rfl (by intro fields h; cases h)

lemma request_success_of_status_lt (apiKey method path : String) (r : HttpResponse)
    (h : r.status < 400) :
    HttpClient.request apiKey method path (.response r)
      = .success (HttpClient.parse_json r) := by
  have h1 : r.status ≠ 401 := by omega
  have h2 : r.status ≠ 429 := by omega
  have h3 : ¬ (400 ≤ r.status) := by omega
  simp [HttpClient.request, h1, h2, h3]

lemma pyToInt_empty : pyToInt "" = none := rfl

/-- Claim C3: `_request` classifies every HTTP response by status code with
the stated precedence, for every requested path: 401 raises the auth error
(status 401, code AUTH_ERROR, message from the body's error field), 429
raises the rate-limit error whose retry-after is the parsed Retry-After
header when present and absent otherwise, any other status at least 400
raises the generic error carrying that status, and a status below 400
returns the parsed body as-is. -/
theorem request_status_classification (apiKey method path : String) (r : HttpResponse) :
    (r.status = 401 →
      HttpClient.request apiKey method path (.response r)
        = .sdkError (kaizenAuthError (errorMessage (HttpClient.parse_json r)) r.xRequestId))
    ∧ (∀ s, pyDictGet (HttpClient.parse_json r) "error" = Json.str s → s ≠ "" →
        errorMessage (HttpClient.parse_json r) = s)
    ∧ (∀ m rid, (kaizenAuthError m rid).status = some 401
        ∧ (kaizenAuthError m rid).code = some "AUTH_ERROR")
    ∧ (r.status = 429 → r.retryAfterHeader = none →
      HttpClient.request apiKey method path (.response r)
        = .sdkError (kaizenRateLimitError (errorMessage (HttpClient.parse_json r))
            none r.xRequestId))
    ∧ (∀ s n, r.status = 429 → r.retryAfterHeader = some s → pyToInt s = some n →
      HttpClient.request apiKey method path (.response r)
        = .sdkError (kaizenRateLimitError (errorMessage (HttpClient.parse_json r))
            (some n) r.xRequestId))
    ∧ (∀ m ra rid, (kaizenRateLimitError m ra rid).retryAfter = ra
        ∧ (kaizenRateLimitError m ra rid).status = some 429)
    ∧ (r.status ≠ 401 → r.status ≠ 429 → 400 ≤ r.status →
      HttpClient.request apiKey method path (.response r)
        = .sdkError (kaizenError (errorMessage (HttpClient.parse_json r))
            (some (r.status : Int)) none r.xRequestId))
    ∧ (r.status < 400 →
      HttpClient.request apiKey method path (.response r)
        = .success (HttpClient.parse_json r))
    ∧ (∀ apiKey2 method2 path2, HttpClient.request apiKey method path (.response r)
        = HttpClient.request apiKey2 method2 path2 (.response r)) := by
  refine ⟨?_, ?_, ?_, ?_, ?_, ?_, ?_, ?_, ?_⟩
  · intro h
    simp [HttpClient.request, h]
  · intro s hs hne
    simp [errorMessage, hs, Json.truthy, Json.pyStr, hne]
  · intro m rid
    exact ⟨rfl, rfl⟩
  · intro h429 hHdr
    simp [HttpClient.request, h429, hHdr]
  · intro s n h429 hHdr hParse
    have hne : s ≠ "" := by
      intro he
      rw [he, pyToInt_empty] at hParse
      exact Option.noConfusion hParse
    simp [HttpClient.request, h429, hHdr, hne, hParse]
  · intro m ra rid
    exact ⟨rfl, rfl⟩
  · intro h1 h2 h3
    simp [HttpClient.request, h1, h2, h3]
  · exact request_success_of_status_lt apiKey method path r
  · intro apiKey2 method2 path2
    rfl

/-- Witness for claim C3 at concrete responses: a 401 with an error body, a
429 with Retry-After 30, a 429 without the header, a 500, and a 200. -/
theorem request_status_classification_witness :
    HttpClient.request "k" "POST" "/v1/akuma/query"
        (.response ⟨401, none, some "req-1", some (Json.obj [("error", Json.str "bad key")]), ""⟩)
      = .sdkError (kaizenAuthError "bad key" (some "req-1"))
    ∧ HttpClient.request "k" "GET" "/v1/enzan/burn"
        (.response ⟨429, some "30", none, some (Json.obj []), ""⟩)
      = .sdkError (kaizenRateLimitError "Request failed" (some 30) none)
    ∧ HttpClient.request "k" "GET" "/v1/enzan/burn"
        (.response ⟨429, none, none, some (Json.obj []), ""⟩)
      = .sdkError (kaizenRateLimitError "Request failed" none none)
    ∧ HttpClient.request "k" "GET" "/health"
        (.response ⟨500, none, none, some (Json.obj []), ""⟩)
      = .sdkError (kaizenError "Request failed" (some 500) none none)
    ∧ HttpClient.request "k" "GET" "/health"
        (.response ⟨200, none, none, some (Json.obj [("ok", Json.bool true)]), ""⟩)
      = .success [("ok", Json.bool true)] := by
  refine ⟨?_, ?_, ?_, ?_, ?_⟩
  · exact (request_status_classification "k" "POST" "/v1/akuma/query"
      ⟨401, none, some "req-1", some (Json.obj [("error", Json.str "bad key")]), ""⟩).1 rfl
  · exact (request_status_classification "k" "GET" "/v1/enzan/burn"
      ⟨429, some "30", none, some (Json.obj []), ""⟩).2.2.2.2.1 "30" 30 rfl rfl rfl
  · exact (request_status_classification "k" "GET" "/v1/enzan/burn"
      ⟨429, none, none, some (Json.obj []), ""⟩).2.2.2.1 rfl rfl
  · exact (request_status_classification "k" "GET" "/health"
      ⟨500, none, none, some (Json.obj []), ""⟩).2.2.2.2.2.2.1
        (by decide) (by decide) (by decide)
  · exact (request_status_classification "k" "GET" "/health"
      ⟨200, none, none, some (Json.obj [("ok", Json.bool true)]), ""⟩).2.2.2.2.2.2.2.1
        (by decide)

lemma except_bind_ok {α β : Type} (a : α) (f : α → Except PyFault β) :
    (Except.ok a >>= f) = f a := rfl

lemma except_bind_error {α β : Type} (e : PyFault) (f : α → Except PyFault β) :
    ((Except.error e : Except PyFault α) >>= f) = Except.error e := rfl

lemma except_pure {α : Type} (a : α) : (pure a : Except PyFault α) = Except.ok a := rfl

/-- Claim C8: a sub-400 response to POST /v1/akuma/query whose body carries
an error field is not raised — the query returns the mapped response whose
error field holds that value, with sql the body's sql defaulting to "". -/
theorem akuma_query_soft_error_not_raised
    (apiKey dialect prompt mode : String) (max_rows : Option Int)
    (guardrails : Option Guardrails) (transport : Transport) (r : HttpResponse) (v : Json)
    (htr : transport "/v1/akuma/query"
        (.obj (AkumaClient.queryPayload dialect prompt mode max_rows guardrails))
      = .response r)
    (hst : r.status < 400)
    (herr : (HttpClient.parse_json r).lookup "error" = some v) :
    AkumaClient.query apiKey dialect prompt mode max_rows guardrails transport
      = .ok (AkumaClient.mapQueryResponse (HttpClient.parse_json r))
    ∧ (AkumaClient.mapQueryResponse (HttpClient.parse_json r)).error = v
    ∧ (AkumaClient.mapQueryResponse (HttpClient.parse_json r)).sql
        = pyDictGetD (HttpClient.parse_json r) "sql" (Json.str "") := by
  refine ⟨?_, ?_, rfl⟩
  · simp only [AkumaClient.query, HttpClient.post, htr]
    rw [request_success_of_status_lt _ _ _ _ hst]
  · simp [AkumaClient.mapQueryResponse, pyDictGet, herr]

/-- Witness for claim C8 at a concrete 200 response whose body carries both
sql and a domain-level error. -/
theorem akuma_query_soft_error_not_raised_witness :
    AkumaClient.query "k" "postgres" "show one row" "sql-only" none none
        (fun _ _ => .response ⟨200, none, none,
          some (Json.obj [("sql", Json.str "SELECT 1"),
                          ("error", Json.str "no tables matched")]), ""⟩)
      = .ok (AkumaClient.mapQueryResponse
          [("sql", Json.str "SELECT 1"), ("error", Json.str "no tables matched")])
    ∧ (AkumaClient.mapQueryResponse
          [("sql", Json.str "SELECT 1"), ("error", Json.str "no tables matched")]).error
        = Json.str "no tables matched" := by
  have h := akuma_query_soft_error_not_raised "k" "postgres" "show one row" "sql-only"
    none none
    (fun _ _ => .response ⟨200, none, none,
      some (Json.obj [("sql", Json.str "SELECT 1"),
                      ("error", Json.str "no tables matched")]), ""⟩)
    ⟨200, none, none,
      some (Json.obj [("sql", Json.str "SELECT 1"),
                      ("error", Json.str "no tables matched")]), ""⟩
    (Json.str "no tables matched") rfl (by decide) rfl
  exact ⟨h.1, h.2.1⟩

lemma pyDictGetD_cons_ne (k key : String) (v d : Json) (fields : List (String × Json))
    (h : (key == k) = false) :
    pyDictGetD ((k, v) :: fields) key d = pyDictGetD fields key d := by
  simp [pyDictGetD, List.lookup, h]

/-- Claim C1 (code bug): the summary mapper is insensitive to the `apiCosts`
key of the wire response — adding it changes nothing — and on the wire body
of the repository's own test `test_enzan_summary_maps_api_costs_when_present`
it produces an `EnzanSummaryResponse`, a record that (per the source
dataclass) has no api-costs field at all, so the claimed mapping does not
exist in the code. -/
theorem enzan_summary_ignores_api_costs :
    (∀ (window : String) (v : Json) (fields : List (String × Json)),
      EnzanClient.mapSummary window (("apiCosts", v) :: fields)
        = EnzanClient.mapSummary window fields)
    ∧ EnzanClient.mapSummary "24h"
        [("window", Json.str "24h"),
         ("startTime", Json.str "2026-02-20T00:00:00Z"),
         ("endTime", Json.str "2026-02-20T23:59:59Z"),
         ("rows", Json.arr []),
         ("total", Json.obj [("cost_usd", Json.num 0), ("gpu_hours", Json.num 0),
                             ("requests", Json.num 0)]),
         ("apiCosts", Json.obj [("totalCostUsd", Json.num 42), ("promptTokens", Json.num 1000),
                                ("outputTokens", Json.num 200), ("queries", Json.num 5)])]
      = .ok ⟨Json.str "24h", Json.str "2026-02-20T00:00:00Z",
             Json.str "2026-02-20T23:59:59Z", [], Json.num 0, Json.num 0, Json.num 0⟩ := by
  refine ⟨?_, rfl⟩
  intro window v fields
  simp only [EnzanClient.mapSummary]
  rw [pyDictGetD_cons_ne "apiCosts" "rows" v (Json.arr []) fields rfl,
      pyDictGetD_cons_ne "apiCosts" "total" v (Json.obj []) fields rfl,
      pyDictGetD_cons_ne "apiCosts" "window" v (Json.str window) fields rfl,
      pyDictGetD_cons_ne "apiCosts" "startTime" v (Json.str "") fields rfl,
      pyDictGetD_cons_ne "apiCosts" "endTime" v (Json.str "") fields rfl]

lemma mapM_error_of_mem {α β : Type} (f : α → Except PyFault β) (xs : List α) (x : α)
    (e : PyFault) (hx : x ∈ xs) (hf : f x = .error e) :
    ∃ e2, mapExcept f xs = .error e2 := by
  induction xs with
  | nil => cases hx
  | cons y ys ih =>
      rcases List.mem_cons.mp hx with h | h
      · subst h
        exact ⟨e, by simp [mapExcept, hf, except_bind_error]⟩
      · cases hfy : f y with
        | error e2 => exact ⟨e2, by simp [mapExcept, hfy, except_bind_error]⟩
        | ok b =>
            rcases ih h with ⟨e2, he2⟩
            exact ⟨e2, by simp [mapExcept, hfy, he2, except_bind_ok, except_bind_error]⟩

/-- Claim C9: a listed resource carrying all of id, provider, gpuType,
gpuCount and hourlyRate maps to an EnzanResource (absent region and labels
mapping to None), the mapping over the resource list is exactly the
per-resource mapper, and a resource missing any required key makes the
mapping fail with a KeyError lookup fault instead of defaulting. -/
theorem enzan_resources_required_fields :
    (∀ (fields : List (String × Json)) (vi vp vg vc vh : Json),
      fields.lookup "id" = some vi →
      fields.lookup "provider" = some vp →
      fields.lookup "gpuType" = some vg →
      fields.lookup "gpuCount" = some vc →
      fields.lookup "hourlyRate" = some vh →
      EnzanClient.mapResource (.obj fields)
        = .ok ⟨vi, vp, vg, vc, vh, pyDictGet fields "region", pyDictGet fields "labels"⟩)
    ∧ (∀ fields : List (String × Json),
        (fields.lookup "id" = none ∨ fields.lookup "provider" = none
          ∨ fields.lookup "gpuType" = none ∨ fields.lookup "gpuCount" = none
          ∨ fields.lookup "hourlyRate" = none) →
        ∃ k, EnzanClient.mapResource (.obj fields) = .error (.keyError k))
    ∧ (∀ (result : List (String × Json)) (rs : List Json),
        pyDictGetD result "resources" (.arr []) = Json.arr rs →
        EnzanClient.list_resources result = mapExcept EnzanClient.mapResource rs)
    ∧ (∀ (result : List (String × Json)) (rs : List Json) (e : Json) (f : PyFault),
        pyDictGetD result "resources" (.arr []) = Json.arr rs →
        e ∈ rs → EnzanClient.mapResource e = .error f →
        ∃ f2, EnzanClient.list_resources result = .error f2) := by
  refine ⟨?_, ?_, ?_, ?_⟩
  · intro fields vi vp vg vc vh h1 h2 h3 h4 h5
    simp [EnzanClient.mapResource, Json.subscript, Json.get, h1, h2, h3, h4, h5,
          except_bind_ok, except_pure]
  · intro fields h
    cases hid : fields.lookup "id" with
    | none =>
        exact ⟨"id", by simp [EnzanClient.mapResource, Json.subscript, hid,
                              except_bind_error]⟩
    | some vi =>
        cases hpr : fields.lookup "provider" with
        | none =>
            exact ⟨"provider", by simp [EnzanClient.mapResource, Json.subscript, hid, hpr,
                                        except_bind_ok, except_bind_error]⟩
        | some vp =>
            cases hgt : fields.lookup "gpuType" with
            | none =>
                exact ⟨"gpuType", by simp [EnzanClient.mapResource, Json.subscript, hid,
                                           hpr, hgt, except_bind_ok, except_bind_error]⟩
            | some vg =>
                cases hgc : fields.lookup "gpuCount" with
                | none =>
                    exact ⟨"gpuCount", by simp [EnzanClient.mapResource, Json.subscript,
                                                hid, hpr, hgt, hgc, except_bind_ok,
                                                except_bind_error]⟩
                | some vc =>
                    cases hhr : fields.lookup "hourlyRate" with
                    | none =>
                        exact ⟨"hourlyRate", by simp [EnzanClient.mapResource,
                                                      Json.subscript, hid, hpr, hgt, hgc,
                                                      hhr, except_bind_ok,
                                                      except_bind_error]⟩
                    | some vh => simp_all
  · intro result rs h
    simp [EnzanClient.list_resources, h, Json.asIterList, except_bind_ok]
  · intro result rs e f h he hf
    rcases mapM_error_of_mem EnzanClient.mapResource rs e f he hf with ⟨f2, hf2⟩
    exact ⟨f2, by simp [EnzanClient.list_resources, h, Json.asIterList, except_bind_ok, hf2]⟩

/-- Witness for claim C9 at concrete wire resources: one with every required
key (and no region/labels), one missing id, and a resource list whose single
element misses id making the whole listing fail. -/
theorem enzan_resources_required_fields_witness :
    EnzanClient.mapResource (Json.obj
        [("id", Json.str "r-1"), ("provider", Json.str "aws"),
         ("gpuType", Json.str "a100"), ("gpuCount", Json.num 8),
         ("hourlyRate", Json.num 32)])
      = .ok ⟨Json.str "r-1", Json.str "aws", Json.str "a100", Json.num 8, Json.num 32,
             Json.null, Json.null⟩
    ∧ (∃ k, EnzanClient.mapResource (Json.obj [("provider", Json.str "aws")])
        = .error (.keyError k))
    ∧ (∃ f2, EnzanClient.list_resources
        [("resources", Json.arr [Json.obj [("provider", Json.str "aws")]])]
        = .error f2) := by
  refine ⟨?_, ?_, ?_⟩
  · exact enzan_resources_required_fields.1 _ _ _ _ _ _ rfl rfl rfl rfl rfl
  · exact enzan_resources_required_fields.2.1 _ (Or.inl rfl)
  · exact enzan_resources_required_fields.2.2.2 _ _
      (Json.obj [("provider", Json.str "aws")]) (.keyError "id") rfl (by simp) rfl

lemma mapM_pyStrElem (cols : List String) :
    mapExcept pyStrElem (cols.map Json.str) = Except.ok cols := by
  induction cols with
  | nil => rfl
  | cons c cs ih => simp [mapExcept, pyStrElem, ih, except_bind_ok, except_pure]

lemma escape_cell (rf : List (String × Json)) (c : String) :
    pyEscapeCsv (pyDictGet rf c) = csvCellSpec rf c := by
  cases h : rf.lookup c with
  | none => simp [pyEscapeCsv, csvCellSpec, pyDictGet, h]
  | some v =>
      cases v <;> simp [pyEscapeCsv, csvCellSpec, csvQuoteSpec, pyDictGet, h]

lemma mapM_cells (rf : List (String × Json)) (cols : List String) :
    mapExcept (fun c => (pyRowGet (.obj rf) c).map pyEscapeCsv) (cols.map Json.str)
      = Except.ok (cols.map (csvCellSpec rf)) := by
  induction cols with
  | nil => rfl
  | cons c cs ih =>
      have hc : (pyRowGet (Json.obj rf) (Json.str c)).map pyEscapeCsv
          = Except.ok (csvCellSpec rf c) := by
        simp [pyRowGet, Except.map, escape_cell]
      simp only [List.map_cons, mapExcept, hc, except_bind_ok, ih, except_pure]

lemma csvLine_obj (cols : List String) (rf : List (String × Json)) :
    csvLine (cols.map Json.str) (Json.obj rf)
      = Except.ok (String.intercalate "," (cols.map (csvCellSpec rf))) := by
  simp [csvLine, mapM_cells, except_bind_ok, except_pure]

lemma mapM_csvLine (cols : List String) (rows : List (List (String × Json))) :
    mapExcept (csvLine (cols.map Json.str)) (rows.map Json.obj)
      = Except.ok (rows.map (fun rf => String.intercalate "," (cols.map (csvCellSpec rf)))) := by
  induction rows with
  | nil => rfl
  | cons rf rest ih =>
      simp [mapExcept, csvLine_obj, ih, except_bind_ok, except_pure]

/-- Claim C5: for every SozoGenerateResponse whose columns are strings and
whose rows are objects, `to_csv` yields exactly the CSV the specification
describes (verbatim header, per-column cells, comma/quote cells wrapped and
doubled, absent cells empty), and on the repository test's concrete response
it yields exactly the two expected lines. -/
theorem sozo_to_csv_matches_spec :
    (∀ (cols : List String) (rows : List (List (String × Json)))
       (stats : List (String × SozoColumnStats)),
      SozoGenerateResponse.to_csv
          ⟨Json.arr (cols.map Json.str), Json.arr (rows.map Json.obj), stats⟩
        = .ok (csvSpec cols rows))
    ∧ SozoGenerateResponse.to_csv
        ⟨Json.arr [Json.str "name", Json.str "note"],
         Json.arr [Json.obj [("name", Json.str "Alice"),
                             ("note", Json.str "He said \"hi\", then left")]],
         []⟩
      = .ok "name,note\nAlice,\"He said \"\"hi\"\", then left\"" := by
  refine ⟨?_, rfl⟩
  intro cols rows stats
  simp [SozoGenerateResponse.to_csv, pyJoin, Json.asIterList, mapM_pyStrElem,
        mapM_csvLine, csvSpec, except_bind_ok, except_pure]

end Kaizen
